import Mathlib

/-!
# Verification of the chip8 emulator core

Shallow embedding of the CHIP-8 emulator (`src/mmu.rs`, `src/cpu.rs`) in
Lean 4, together with theorems settling the specification claims about the
memory unit and the CPU opcode engine.

Machine integers are modelled as `Nat` with explicit reductions:
`u8` values are reduced `% 256` at every point where the Rust code performs
an `as u8` cast or a `wrapping` operation, and 12-bit addresses are reduced
`% 4096` at every `wrapping_add` of the `arbintrary::uint<12>` type used by
the CPU.  The `ux::u12` addition used by the MMU is *checked* (the crate
panics on overflow, which the repository's own tests
`panics_on_read_u16_overflow` / `panics_on_write_u16_overflow` assert), so
it is modelled as an `Option`-valued addition.  Rust panics are modelled as
`Except.error` carrying exactly the panic message string of the source.
-/

namespace Chip8

/-! ## Memory unit (`src/mmu.rs`, `Chip8Mmu`) -/

/-- `Chip8Mmu::MEM_SIZE`: total number of bytes available. -/
def MEM_SIZE : Nat := 4096

/-- `Chip8Mmu::PROGRAM_START`: address of the first instruction. -/
def PROGRAM_START : Nat := 0x200

/-- `Chip8Mmu::FONT_SPRITE_HEIGHT`: number of bytes in each font sprite. -/
def FONT_SPRITE_HEIGHT : Nat := 5

/-- `Chip8Mmu::FONT_SET`: the 16 font glyphs, 5 bytes each. -/
def FONT_SET : List Nat := [
  0xF0, 0x90, 0x90, 0x90, 0xF0,
  0x20, 0x60, 0x20, 0x20, 0x70,
  0xF0, 0x10, 0xF0, 0x80, 0xF0,
  0xF0, 0x10, 0xF0, 0x10, 0xF0,
  0x90, 0x90, 0xF0, 0x10, 0x10,
  0xF0, 0x80, 0xF0, 0x10, 0xF0,
  0xF0, 0x80, 0xF0, 0x90, 0xF0,
  0xF0, 0x10, 0x20, 0x40, 0x40,
  0xF0, 0x90, 0xF0, 0x90, 0xF0,
  0xF0, 0x90, 0xF0, 0x10, 0xF0,
  0xF0, 0x90, 0xF0, 0x90, 0x90,
  0xE0, 0x90, 0xE0, 0x90, 0xE0,
  0xF0, 0x80, 0x80, 0x80, 0xF0,
  0xE0, 0x90, 0x90, 0x90, 0xE0,
  0xF0, 0x80, 0xF0, 0x80, 0xF0,
  0xF0, 0x80, 0xF0, 0x80, 0x80]

/-- `ux::u12` addition as used in `read_u16`/`write_u16` (`address + u12::new(1)`).
The `ux` crate's `Add` panics when the 12-bit range is exceeded; the
repository's tests `panics_on_read_u16_overflow` and
`panics_on_write_u16_overflow` pin this behaviour down, so the addition is
modelled as `none` on overflow. -/
def u12add (a b : Nat) : Option Nat :=
  if a + b < 4096 then some (a + b) else none

/-- The memory unit: `memory: Vec<u8>` of length `MEM_SIZE`, modelled as a
total function from addresses to byte values (the `u12` address type keeps
every access of the source inside the 4096-byte vector). -/
structure Chip8Mmu where
  memory : Nat → Nat

/-- `Chip8Mmu::new()`: zeroed memory with the font data at addresses 0–79. -/
def Chip8Mmu.new : Chip8Mmu :=
  ⟨fun a => FONT_SET.getD a 0⟩

/-- `Chip8Mmu::read_u8`. -/
def Chip8Mmu.read_u8 (m : Chip8Mmu) (address : Nat) : Nat :=
  m.memory address

/-- `Chip8Mmu::write_u8`. -/
def Chip8Mmu.write_u8 (m : Chip8Mmu) (address data : Nat) : Chip8Mmu :=
  ⟨fun a => if a = address then data else m.memory a⟩

/-- `Chip8Mmu::read_u16`: big-endian two-byte read; the second address is
`address + u12::new(1)`, whose checked addition fails at `address = 0xFFF`. -/
def Chip8Mmu.read_u16 (m : Chip8Mmu) (address : Nat) : Option Nat :=
  (u12add address 1).map fun a1 => (m.memory address <<< 8) ||| m.memory a1

/-- `Chip8Mmu::write_u16`: stores `(data >> 8) as u8` at `address` and
`data as u8` at `address + u12::new(1)`.  At `address = 0xFFF` the `u12`
increment panics; the high-byte store the source performs just before that
panic is unobservable because the panic aborts the run, so the failing case
is modelled as `none`. -/
def Chip8Mmu.write_u16 (m : Chip8Mmu) (address data : Nat) : Option Chip8Mmu :=
  (u12add address 1).map fun a1 =>
    (m.write_u8 address ((data >>> 8) % 256)).write_u8 a1 (data % 256)

/-- `Chip8Mmu::load_program`, taking the program image as a byte list (the
file-system read is external).  The size check against
`MEM_SIZE - PROGRAM_START` happens before the copy loop; the result pairs
the (possibly updated) memory with the error message, mirroring `&mut self`
plus `Result`. -/
def Chip8Mmu.load_program (m : Chip8Mmu) (program : List Nat) :
    Chip8Mmu × Option String :=
  if program.length > MEM_SIZE - PROGRAM_START then
    (m, some "Memory overflow, program too large.")
  else
    ((program.enum.foldl (fun mem p => mem.write_u8 (PROGRAM_START + p.1) p.2) m),
      none)

/-! ## CPU / opcode engine (`src/cpu.rs`, `Cpu`) -/

/-- `Cpu::OPCODE_SIZE`. -/
def OPCODE_SIZE : Nat := 2

/-- `Cpu::REGISTER_SIZE`. -/
def REGISTER_SIZE : Nat := 16

/-- `Cpu::STACK_SIZE` (used by the source only as the `VecDeque` capacity hint). -/
def STACK_SIZE : Nat := 16

/-- `Cpu::CARRY_REGISTER`. -/
def CARRY_REGISTER : Nat := 0xF

/-- The CPU state of `struct Cpu`.  The `VecDeque<uint<12>>` call stack is
modelled as a list whose head is the deque's back (`push_back` conses,
`pop_back` takes the head).  `uint<12>` values are `Nat`s kept below 4096 by
the explicit `% 4096` reductions mirroring `wrapping_add`. -/
structure Cpu where
  mmu : Chip8Mmu
  registers : List Nat
  index : Nat
  program_counter : Nat
  delay_timer : Nat
  sound_timer : Nat
  stack : List Nat
  key_latch : Option Nat

/-- One cycle's view of the external window collaborator (`Box<dyn Window>`)
and of the random-byte source: the key queries, the draw collision result
and `fastrand::u8(..)` are inputs of the instruction step. -/
structure Env where
  get_pressed_key : Option Nat
  is_key_pressed : Nat → Bool
  draw : Nat → Nat → List Nat → Bool
  rand_u8 : Nat

/-- `Cpu::new` (the window and audio collaborators carry no CPU state). -/
def Cpu.new (mmu : Chip8Mmu) : Cpu where
  mmu := mmu
  registers := List.replicate REGISTER_SIZE 0
  index := 0
  program_counter := 0x200
  delay_timer := 0
  sound_timer := 0
  stack := []
  key_latch := none

/-- `self.registers[i]` (reads are always at indices `< 16` in the source,
where the vector has length 16). -/
def Cpu.reg (c : Cpu) (i : Nat) : Nat :=
  c.registers.getD i 0

/-- `self.registers[i] = v`. -/
def Cpu.setReg (c : Cpu) (i v : Nat) : Cpu :=
  { c with registers := c.registers.set i v }

/-- `Cpu::split_xnn`. -/
def split_xnn (data : Nat) : Nat × Nat :=
  ((data &&& 0xF00) >>> 8, data &&& 0xFF)

/-- `Cpu::split_xyn`. -/
def split_xyn (data : Nat) : Nat × Nat × Nat :=
  ((data &&& 0xF00) >>> 8, (data &&& 0x0F0) >>> 4, data &&& 0x00F)

/-- Result of one opcode handler: either a Rust panic (its message), or the
updated CPU together with `Option<uint<12>>` — `some pc` for an explicit new
program counter, `none` for fall-through. -/
abbrev HandlerResult := Except String (Cpu × Option Nat)

/-- `Cpu::opcode_0`: blank screen (`0x0E0`, a window effect with no CPU-state
change), return from subroutine (`0x0EE`), else panic. -/
def Cpu.opcode_0 (_env : Env) (c : Cpu) (data : Nat) : HandlerResult :=
  if data = 0x0E0 then
    .ok (c, none)
  else if data = 0x0EE then
    match c.stack with
    | v :: rest => .ok ({ c with stack := rest }, some v)
    | [] => .error "Stack underflow!"
  else
    .error "Unhandled machine code routine instruction"

/-- `Cpu::opcode_1`: jump to address. -/
def Cpu.opcode_1 (_env : Env) (c : Cpu) (data : Nat) : HandlerResult :=
  .ok (c, some data)

/-- `Cpu::opcode_2`: call subroutine — unconditionally `push_back` the
return address `program_counter.wrapping_add(2)` and jump. -/
def Cpu.opcode_2 (_env : Env) (c : Cpu) (data : Nat) : HandlerResult :=
  .ok ({ c with stack := ((c.program_counter + OPCODE_SIZE) % 4096) :: c.stack },
    some data)

/-- `Cpu::opcode_3`: skip the next instruction if VX equals NN. -/
def Cpu.opcode_3 (_env : Env) (c : Cpu) (data : Nat) : HandlerResult :=
  let (x, nn) := split_xnn data
  if c.reg x = nn then
    .ok (c, some ((c.program_counter + OPCODE_SIZE * 2) % 4096))
  else
    .ok (c, none)

/-- `Cpu::opcode_4`: skip the next instruction if VX doesn't equal NN. -/
def Cpu.opcode_4 (_env : Env) (c : Cpu) (data : Nat) : HandlerResult :=
  let (x, nn) := split_xnn data
  if c.reg x ≠ nn then
    .ok (c, some ((c.program_counter + OPCODE_SIZE * 2) % 4096))
  else
    .ok (c, none)

/-- `Cpu::opcode_5`: skip the next instruction if VX equals VY. -/
def Cpu.opcode_5 (_env : Env) (c : Cpu) (data : Nat) : HandlerResult :=
  let (x, y, _) := split_xyn data
  if c.reg x = c.reg y then
    .ok (c, some ((c.program_counter + OPCODE_SIZE * 2) % 4096))
  else
    .ok (c, none)

/-- `Cpu::opcode_6`: set VX to NN. -/
def Cpu.opcode_6 (_env : Env) (c : Cpu) (data : Nat) : HandlerResult :=
  let (x, nn) := split_xnn data
  .ok (c.setReg x nn, none)

/-- `Cpu::opcode_7`: add NN to VX with `wrapping_add` (carry flag untouched). -/
def Cpu.opcode_7 (_env : Env) (c : Cpu) (data : Nat) : HandlerResult :=
  let (x, nn) := split_xnn data
  .ok (c.setReg x ((c.reg x + nn) % 256), none)

/-- `Cpu::opcode_8`: the ALU family, dispatched on the low nibble.  `u8`
`overflowing_add`/`overflowing_sub` results are written out as
`% 256`-reduced sums/two's-complement differences, and the carry register
writes happen in the source's order (after the result store for 4/5/7,
before the shift for 6/E). -/
def Cpu.opcode_8 (_env : Env) (c : Cpu) (data : Nat) : HandlerResult :=
  let (x, y, op) := split_xyn data
  if op = 0x0 then
    .ok (c.setReg x (c.reg y), none)
  else if op = 0x1 then
    .ok ((c.setReg x (c.reg x ||| c.reg y)).setReg CARRY_REGISTER 0, none)
  else if op = 0x2 then
    .ok ((c.setReg x (c.reg x &&& c.reg y)).setReg CARRY_REGISTER 0, none)
  else if op = 0x3 then
    .ok ((c.setReg x (c.reg x ^^^ c.reg y)).setReg CARRY_REGISTER 0, none)
  else if op = 0x4 then
    .ok (((c.setReg x ((c.reg x + c.reg y) % 256)).setReg CARRY_REGISTER
      (if 255 < c.reg x + c.reg y then 1 else 0)), none)
  else if op = 0x5 then
    .ok (((c.setReg x ((c.reg x + 256 - c.reg y) % 256)).setReg CARRY_REGISTER
      (if c.reg x < c.reg y then 0 else 1)), none)
  else if op = 0x6 then
    let c1 := c.setReg CARRY_REGISTER (c.reg x &&& 0x1)
    .ok (c1.setReg x (c1.reg x >>> 1), none)
  else if op = 0x7 then
    .ok (((c.setReg x ((c.reg y + 256 - c.reg x) % 256)).setReg CARRY_REGISTER
      (if c.reg y < c.reg x then 0 else 1)), none)
  else if op = 0xE then
    let c1 := c.setReg CARRY_REGISTER ((c.reg x &&& 0x80) >>> 7)
    .ok (c1.setReg x ((c1.reg x <<< 1) % 256), none)
  else
    .error "Unhandled register operation"

/-- `Cpu::opcode_9`: skip the next instruction if VX doesn't equal VY. -/
def Cpu.opcode_9 (_env : Env) (c : Cpu) (data : Nat) : HandlerResult :=
  let (x, y, _) := split_xyn data
  if c.reg x ≠ c.reg y then
    .ok (c, some ((c.program_counter + OPCODE_SIZE * 2) % 4096))
  else
    .ok (c, none)

/-- `Cpu::opcode_a`: set I to NNN. -/
def Cpu.opcode_a (_env : Env) (c : Cpu) (data : Nat) : HandlerResult :=
  .ok ({ c with index := data }, none)

/-- `Cpu::opcode_b`: jump to NNN plus V0 (a `u8`, widened) with 12-bit wrap. -/
def Cpu.opcode_b (_env : Env) (c : Cpu) (data : Nat) : HandlerResult :=
  .ok (c, some ((c.reg 0 + data) % 4096))

/-- `Cpu::opcode_c`: VX := random `u8` AND NN. -/
def Cpu.opcode_c (env : Env) (c : Cpu) (data : Nat) : HandlerResult :=
  let (x, nn) := split_xnn data
  .ok (c.setReg x ((env.rand_u8 % 256) &&& nn), none)

/-- `Cpu::opcode_d`: read the N sprite rows from memory at I (with 12-bit
wrapping index additions) and store the window's collision result in VF. -/
def Cpu.opcode_d (env : Env) (c : Cpu) (data : Nat) : HandlerResult :=
  let (x, y, n) := split_xyn data
  let sprite := (List.range n).map fun i => c.mmu.read_u8 ((c.index + i) % 4096)
  .ok (c.setReg CARRY_REGISTER
    (if env.draw (c.reg x) (c.reg y) sprite then 1 else 0), none)

/-- `Cpu::opcode_e`: key-state skips; the key query happens before the
sub-opcode dispatch, any other sub-opcode panics. -/
def Cpu.opcode_e (env : Env) (c : Cpu) (data : Nat) : HandlerResult :=
  let (x, op) := split_xnn data
  let is_key_pressed := env.is_key_pressed (c.reg x)
  if op = 0x9E then
    if is_key_pressed then
      .ok (c, some ((c.program_counter + OPCODE_SIZE * 2) % 4096))
    else
      .ok (c, none)
  else if op = 0xA1 then
    if !is_key_pressed then
      .ok (c, some ((c.program_counter + OPCODE_SIZE * 2) % 4096))
    else
      .ok (c, none)
  else
    .error "Unhandled key check operation"

/-- `Cpu::opcode_f`: the misc family, dispatched on the low byte. -/
def Cpu.opcode_f (env : Env) (c : Cpu) (data : Nat) : HandlerResult :=
  let (x, op) := split_xnn data
  if op = 0x07 then
    .ok (c.setReg x c.delay_timer, none)
  else if op = 0x0A then
    match env.get_pressed_key with
    | some key => .ok ({ c with key_latch := some key }, some c.program_counter)
    | none =>
      match c.key_latch with
      | some latched_key =>
        .ok ({ c.setReg x latched_key with key_latch := none }, none)
      | none => .ok (c, some c.program_counter)
  else if op = 0x15 then
    .ok ({ c with delay_timer := c.reg x }, none)
  else if op = 0x18 then
    .ok ({ c with sound_timer := c.reg x }, none)
  else if op = 0x1E then
    .ok ({ c with index := (c.index + c.reg x) % 4096 }, none)
  else if op = 0x29 then
    .ok ({ c with index := FONT_SPRITE_HEIGHT * c.reg x }, none)
  else if op = 0x33 then
    let m1 := c.mmu.write_u8 c.index (c.reg x / 100)
    let m2 := m1.write_u8 ((c.index + 1) % 4096) (c.reg x % 100 / 10)
    let m3 := m2.write_u8 ((c.index + 2) % 4096) (c.reg x % 10)
    .ok ({ c with mmu := m3 }, none)
  else if op = 0x55 then
    .ok ({ c with mmu := ((List.range (x + 1)).foldl
      (fun m i => m.write_u8 ((c.index + i) % 4096) (c.reg i)) c.mmu) }, none)
  else if op = 0x65 then
    .ok ((List.range (x + 1)).foldl
      (fun cc i => cc.setReg i (cc.mmu.read_u8 ((cc.index + i) % 4096))) c, none)
  else
    .error "Unhandled register operation"

/-- `Cpu::FUNC_MAP`: the 16 per-family handlers indexed by the top nibble. -/
def FUNC_MAP : List (Env → Cpu → Nat → HandlerResult) :=
  [Cpu.opcode_0, Cpu.opcode_1, Cpu.opcode_2, Cpu.opcode_3,
   Cpu.opcode_4, Cpu.opcode_5, Cpu.opcode_6, Cpu.opcode_7,
   Cpu.opcode_8, Cpu.opcode_9, Cpu.opcode_a, Cpu.opcode_b,
   Cpu.opcode_c, Cpu.opcode_d, Cpu.opcode_e, Cpu.opcode_f]

/-- `Cpu::exec_opcode`: dispatch through `FUNC_MAP[opcode >> 12]` on
`opcode & 0xFFF`, then either adopt the handler's explicit program counter
or advance it by `OPCODE_SIZE` with 12-bit wrap.  (For a `u16` opcode the
top nibble is `< 16`, so the `getD` default is never used.) -/
def Cpu.exec_opcode (env : Env) (c : Cpu) (opcode : Nat) : Except String Cpu :=
  match (FUNC_MAP.getD (opcode >>> 12) Cpu.opcode_0) env c (opcode &&& 0xFFF) with
  | .error e => .error e
  | .ok (c', some program_counter) => .ok { c' with program_counter }
  | .ok (c', none) =>
    .ok { c' with program_counter := (c'.program_counter + OPCODE_SIZE) % 4096 }

/-- `Cpu::run_cycle`: fetch the big-endian word at the program counter and
execute it (the fetch itself panics at `program_counter = 0xFFF`, where the
MMU's `u12` increment overflows). -/
def Cpu.run_cycle (env : Env) (c : Cpu) : Except String Cpu :=
  match c.mmu.read_u16 c.program_counter with
  | some opcode => c.exec_opcode env opcode
  | none => .error "attempt to add with overflow"

/-- `Cpu::run_60hz_cycle`: gate the audio on the sound timer and decrement
both timers, each only when positive.  The returned flag records the audio
command issued (`true` = `play`, `false` = `pause`); `window.render()` has
no CPU-state effect. -/
def Cpu.run_60hz_cycle (c : Cpu) : Cpu × Bool :=
  let (c1, play) :=
    if c.sound_timer > 0 then
      ({ c with sound_timer := c.sound_timer - 1 }, true)
    else
      (c, false)
  let c2 :=
    if c1.delay_timer > 0 then { c1 with delay_timer := c1.delay_timer - 1 }
    else c1
  (c2, play)

/-! ## Arithmetic and indexing lemmas -/

theorem and_div_pow (a b n : Nat) :
    (a &&& b) / 2 ^ n = a / 2 ^ n &&& b / 2 ^ n := by
  induction n with
  | zero => simp
  | succ n ih =>
    rw [pow_succ, ← Nat.div_div_eq_div_mul, ih, Nat.and_div_two,
      Nat.div_div_eq_div_mul, Nat.div_div_eq_div_mul, ← pow_succ]

theorem and_mask_255 (a : Nat) : a &&& 0xFF = a % 256 := by
  have h := Nat.and_pow_two_sub_one_eq_mod a 8
  norm_num at h
  exact h

theorem and_mask_4095 (a : Nat) : a &&& 0xFFF = a % 4096 := by
  have h := Nat.and_pow_two_sub_one_eq_mod a 12
  norm_num at h
  exact h

theorem and_mask_15 (a : Nat) : a &&& 0xF = a % 16 := by
  have h := Nat.and_pow_two_sub_one_eq_mod a 4
  norm_num at h
  exact h

theorem hi_nibble_eq (a : Nat) : (a &&& 0xF00) >>> 8 = a / 256 % 16 := by
  rw [Nat.shiftRight_eq_div_pow]
  have h2 := and_div_pow a 0xF00 8
  norm_num at h2 ⊢
  rw [h2]
  have h3 := Nat.and_pow_two_sub_one_eq_mod (a / 256) 4
  norm_num at h3
  exact h3

theorem mid_nibble_eq (a : Nat) : (a &&& 0x0F0) >>> 4 = a / 16 % 16 := by
  rw [Nat.shiftRight_eq_div_pow]
  have h2 := and_div_pow a 0x0F0 4
  norm_num at h2 ⊢
  rw [h2]
  have h3 := Nat.and_pow_two_sub_one_eq_mod (a / 16) 4
  norm_num at h3
  exact h3

theorem shiftLeft_or_eq (hi lo : Nat) (h : lo < 256) :
    (hi <<< 8) ||| lo = hi * 256 + lo := by
  rw [Nat.shiftLeft_eq]
  have h2 := Nat.mul_add_lt_is_or (i := 8) (b := lo) (by norm_num; omega) hi
  norm_num at h2 ⊢
  rw [Nat.mul_comm hi 256, ← h2]

theorem split_xnn_eq (a : Nat) : split_xnn a = (a / 256 % 16, a % 256) := by
  unfold split_xnn
  rw [hi_nibble_eq, and_mask_255]

theorem split_xyn_eq (a : Nat) :
    split_xyn a = (a / 256 % 16, a / 16 % 16, a % 16) := by
  unfold split_xyn
  rw [hi_nibble_eq, mid_nibble_eq, and_mask_15]

theorem reg_setReg_self (c : Cpu) (i v : Nat) (h : i < c.registers.length) :
    (c.setReg i v).reg i = v := by
  simp [Cpu.setReg, Cpu.reg, List.getElem?_set_self h]

theorem reg_setReg_ne (c : Cpu) {i j : Nat} (v : Nat) (h : i ≠ j) :
    (c.setReg i v).reg j = c.reg j := by
  simp [Cpu.setReg, Cpu.reg, List.getElem?_set_ne h]

theorem FUNC_MAP_at_0 : FUNC_MAP.getD 0 Cpu.opcode_0 = Cpu.opcode_0 := rfl
theorem FUNC_MAP_at_2 : FUNC_MAP.getD 2 Cpu.opcode_0 = Cpu.opcode_2 := rfl
theorem FUNC_MAP_at_7 : FUNC_MAP.getD 7 Cpu.opcode_0 = Cpu.opcode_7 := rfl
theorem FUNC_MAP_at_8 : FUNC_MAP.getD 8 Cpu.opcode_0 = Cpu.opcode_8 := rfl
theorem FUNC_MAP_at_14 : FUNC_MAP.getD 14 Cpu.opcode_0 = Cpu.opcode_e := rfl
theorem FUNC_MAP_at_15 : FUNC_MAP.getD 15 Cpu.opcode_0 = Cpu.opcode_f := rfl

/-- A concrete environment for closed evaluations: no key pressed, no
collision, random byte 0. -/
def env0 : Env := ⟨none, fun _ => false, fun _ _ _ => false, 0⟩

/-- A concrete CPU in its start state. -/
def cpu0 : Cpu := Cpu.new Chip8Mmu.new

/-! ## Claim theorems -/

/-- C2, counterexample: at `addr = 0xFFF` both `read_u16` and `write_u16`
fail (the `u12` increment overflows and the source panics, as its own tests
assert), refuting "both operations succeed without failure for all 4096
addresses". -/
theorem read_write_u16_fail_at_fff :
    Chip8Mmu.new.read_u16 0xFFF = none ∧
    Chip8Mmu.new.write_u16 0xFFF 0xFFFF = none := by
  constructor <;> rfl

/-- C2 (amended): for every address `addr < 4095`, `read_u16` reads the
most-significant byte at `addr` and the second byte at `addr + 1` and
succeeds, and `write_u16` writes exactly those two cells and succeeds; the
address `0xFFF` is excluded, where the 12-bit increment overflows and the
operations panic instead of wrapping. -/
theorem read_write_u16_in_range (m : Chip8Mmu) (addr w : Nat)
    (h : addr < 4095) :
    m.read_u16 addr = some ((m.memory addr <<< 8) ||| m.memory (addr + 1)) ∧
    ∃ m', m.write_u16 addr w = some m' ∧
      m'.memory addr = (w >>> 8) % 256 ∧
      m'.memory (addr + 1) = w % 256 ∧
      ∀ a, a ≠ addr → a ≠ addr + 1 → m'.memory a = m.memory a := by
  have hadd : u12add addr 1 = some (addr + 1) := by
    unfold u12add
    rw [if_pos (by omega)]
  refine ⟨by rw [Chip8Mmu.read_u16, hadd]; rfl, ?_⟩
  refine ⟨_, by rw [Chip8Mmu.write_u16, hadd]; rfl, ?_, ?_, ?_⟩
  · simp [Chip8Mmu.write_u8]
  · simp [Chip8Mmu.write_u8]
  · intro a ha ha1
    simp [Chip8Mmu.write_u8, ha, ha1]

/-- C2 witness: the amended theorem applied at `addr = 0x200`, `w = 0xFE12`. -/
theorem read_write_u16_in_range_witness :
    (0x200 : Nat) < 4095 ∧
    Chip8Mmu.new.read_u16 0x200 =
      some ((Chip8Mmu.new.memory 0x200 <<< 8) ||| Chip8Mmu.new.memory 0x201) ∧
    ∃ m', Chip8Mmu.new.write_u16 0x200 0xFE12 = some m' ∧
      m'.memory 0x200 = (0xFE12 >>> 8) % 256 ∧
      m'.memory 0x201 = 0xFE12 % 256 ∧
      ∀ a, a ≠ 0x200 → a ≠ 0x201 → m'.memory a = Chip8Mmu.new.memory a :=
  ⟨by decide, (read_write_u16_in_range Chip8Mmu.new 0x200 0xFE12 (by decide)).1,
    (read_write_u16_in_range Chip8Mmu.new 0x200 0xFE12 (by decide)).2⟩

/-- C9: for every address `addr < 4095` and 16-bit word `w`, reading back
after `write_u16 addr w` returns `w` unchanged. -/
theorem write_u16_read_u16_roundtrip (m : Chip8Mmu) (addr w : Nat)
    (h : addr < 4095) (hw : w < 65536) :
    ∃ m', m.write_u16 addr w = some m' ∧ m'.read_u16 addr = some w := by
  have hadd : u12add addr 1 = some (addr + 1) := by
    unfold u12add
    rw [if_pos (by omega)]
  refine ⟨(m.write_u8 addr ((w >>> 8) % 256)).write_u8 (addr + 1) (w % 256),
    by rw [Chip8Mmu.write_u16, hadd]; rfl, ?_⟩
  rw [Chip8Mmu.read_u16, hadd, Option.map_some']
  simp only [Chip8Mmu.write_u8]
  rw [if_neg (show ¬ addr = addr + 1 by omega)]
  simp only [if_true, Option.some.injEq]
  have hdiv : w >>> 8 % 256 = w / 256 := by
    rw [Nat.shiftRight_eq_div_pow]
    norm_num
    omega
  rw [hdiv, shiftLeft_or_eq _ _ (Nat.mod_lt _ (by norm_num))]
  omega

/-- C9 witness: the round-trip theorem applied at `addr = 0x200`,
`w = 0xFE12`. -/
theorem write_u16_read_u16_roundtrip_witness :
    (0x200 : Nat) < 4095 ∧ (0xFE12 : Nat) < 65536 ∧
    ∃ m', Chip8Mmu.new.write_u16 0x200 0xFE12 = some m' ∧
      m'.read_u16 0x200 = some 0xFE12 :=
  ⟨by decide, by decide,
    write_u16_read_u16_roundtrip Chip8Mmu.new 0x200 0xFE12 (by decide) (by decide)⟩

/-- C10: when the program image exceeds `MEM_SIZE - PROGRAM_START = 3584`
bytes, `load_program` fails atomically: the size check precedes the copy
loop, so the returned memory is exactly the prior memory, for every prior
state. -/
theorem load_program_too_large_atomic (m : Chip8Mmu) (program : List Nat)
    (h : program.length > 3584) :
    m.load_program program = (m, some "Memory overflow, program too large.") := by
  unfold Chip8Mmu.load_program
  rw [if_pos]
  unfold MEM_SIZE PROGRAM_START
  omega

/-- C10 witness: a 3585-byte image fails and leaves a concrete memory
untouched. -/
theorem load_program_too_large_atomic_witness :
    (List.replicate 3585 (0 : Nat)).length > 3584 ∧
    Chip8Mmu.new.load_program (List.replicate 3585 0) =
      (Chip8Mmu.new, some "Memory overflow, program too large.") :=
  ⟨by rw [List.length_replicate]; omega,
    load_program_too_large_atomic Chip8Mmu.new _
      (by rw [List.length_replicate]; omega)⟩

/-- C8: the add-immediate instruction `7XNN` stores the 8-bit wraparound sum
in register X, leaves every other register (in particular the carry register
whenever it is not the destination) unchanged, and touches no other CPU
state apart from the usual program-counter advance. -/
theorem add_immediate_no_carry (env : Env) (c : Cpu) (x nn : Nat)
    (hx : x < 16) (hnn : nn < 256) (hlen : c.registers.length = 16) :
    ∃ c', Cpu.exec_opcode env c (0x7000 + (x * 256 + nn)) = .ok c' ∧
      c'.reg x = (c.reg x + nn) % 256 ∧
      (∀ j, j ≠ x → c'.reg j = c.reg j) ∧
      c'.index = c.index ∧
      c'.delay_timer = c.delay_timer ∧
      c'.sound_timer = c.sound_timer ∧
      c'.stack = c.stack ∧
      c'.key_latch = c.key_latch ∧
      c'.program_counter = (c.program_counter + OPCODE_SIZE) % 4096 := by
  have e1 : (0x7000 + (x * 256 + nn)) >>> 12 = 7 := by
    rw [Nat.shiftRight_eq_div_pow]
    norm_num
    omega
  have e2 : (0x7000 + (x * 256 + nn)) &&& 0xFFF = x * 256 + nn := by
    rw [and_mask_4095]
    omega
  unfold Cpu.exec_opcode
  rw [e1, e2, FUNC_MAP_at_7]
  simp only [Cpu.opcode_7, split_xnn_eq]
  have ex : (x * 256 + nn) / 256 % 16 = x := by omega
  have en : (x * 256 + nn) % 256 = nn := by omega
  rw [ex, en]
  refine ⟨_, rfl, ?_, ?_, ?_, ?_, ?_, ?_, ?_, ?_⟩
  · exact reg_setReg_self c x _ (by omega)
  · intro j hj
    exact reg_setReg_ne c _ (fun hxy => hj hxy.symm)
  all_goals simp [Cpu.setReg]

/-- C8 witness: `0x74FF` on a register holding 2 wraps to 1 without touching
the carry register (the repository's `op_7XNN_adds_to_register` scenario). -/
theorem add_immediate_no_carry_witness :
    (4 : Nat) < 16 ∧ (0xFF : Nat) < 256 ∧
    ∃ c', Cpu.exec_opcode env0
        { cpu0 with registers := [0, 0, 0, 0, 0x02, 0, 0, 0, 0, 0, 0, 0, 0, 0, 0, 0] }
        (0x7000 + (4 * 256 + 0xFF)) = .ok c' ∧
      c'.reg 4 = (({ cpu0 with registers := [0, 0, 0, 0, 0x02, 0, 0, 0, 0, 0, 0, 0, 0, 0, 0, 0] } : Cpu).reg 4 + 0xFF) % 256 ∧
      (∀ j, j ≠ 4 → c'.reg j = ({ cpu0 with registers := [0, 0, 0, 0, 0x02, 0, 0, 0, 0, 0, 0, 0, 0, 0, 0, 0] } : Cpu).reg j) ∧
      c'.index = cpu0.index ∧
      c'.delay_timer = cpu0.delay_timer ∧
      c'.sound_timer = cpu0.sound_timer ∧
      c'.stack = cpu0.stack ∧
      c'.key_latch = cpu0.key_latch ∧
      c'.program_counter = (cpu0.program_counter + OPCODE_SIZE) % 4096 :=
  ⟨by decide, by decide,
    add_immediate_no_carry env0 _ 4 0xFF (by decide) (by decide) (by decide)⟩

/-- C4: the add-with-carry instruction `8XY4` stores `(a + b) mod 256` in
register X and sets the carry register to 1 exactly when `a + b > 255`
(for a destination other than the carry register itself, which the
instruction overwrites last). -/
theorem add_with_carry_spec (env : Env) (c : Cpu) (x y a b : Nat)
    (hx : x < 16) (hy : y < 16) (hxF : x ≠ 15)
    (hlen : c.registers.length = 16)
    (ha : c.reg x = a) (hb : c.reg y = b)
    (ha' : a < 256) (hb' : b < 256) :
    ∃ c', Cpu.exec_opcode env c (0x8000 + (x * 256 + y * 16 + 4)) = .ok c' ∧
      c'.reg x = (a + b) % 256 ∧
      c'.reg CARRY_REGISTER = (if 255 < a + b then 1 else 0) ∧
      c'.program_counter = (c.program_counter + OPCODE_SIZE) % 4096 := by
  have e1 : (0x8000 + (x * 256 + y * 16 + 4)) >>> 12 = 8 := by
    rw [Nat.shiftRight_eq_div_pow]
    norm_num
    omega
  have e2 : (0x8000 + (x * 256 + y * 16 + 4)) &&& 0xFFF = x * 256 + y * 16 + 4 := by
    rw [and_mask_4095]
    omega
  have ex : (x * 256 + y * 16 + 4) / 256 % 16 = x := by omega
  have ey : (x * 256 + y * 16 + 4) / 16 % 16 = y := by omega
  have en : (x * 256 + y * 16 + 4) % 16 = 4 := by omega
  have hstep : Cpu.exec_opcode env c (0x8000 + (x * 256 + y * 16 + 4)) =
      .ok { (c.setReg x ((c.reg x + c.reg y) % 256)).setReg CARRY_REGISTER
              (if 255 < c.reg x + c.reg y then 1 else 0) with
            program_counter := (c.program_counter + OPCODE_SIZE) % 4096 } := by
    unfold Cpu.exec_opcode
    rw [e1, e2, FUNC_MAP_at_8]
    simp only [Cpu.opcode_8, split_xyn_eq]
    rw [ex, ey, en]
    rfl
  have hne : CARRY_REGISTER ≠ x := by
    unfold CARRY_REGISTER
    omega
  refine ⟨_, hstep, ?_, ?_, ?_⟩
  · show ((c.setReg x ((c.reg x + c.reg y) % 256)).setReg CARRY_REGISTER
      (if 255 < c.reg x + c.reg y then 1 else 0)).reg x = _
    rw [reg_setReg_ne _ _ hne]
    rw [reg_setReg_self c x _ (by omega), ha, hb]
  · show ((c.setReg x ((c.reg x + c.reg y) % 256)).setReg CARRY_REGISTER
      (if 255 < c.reg x + c.reg y then 1 else 0)).reg CARRY_REGISTER = _
    rw [reg_setReg_self _ CARRY_REGISTER _
      (by unfold CARRY_REGISTER; simp [Cpu.setReg, hlen])]
    rw [ha, hb]
  · rfl

/-- C4 witness: `a = 0xFF`, `b = 0x03` gives result `0x02` with carry 1. -/
theorem add_with_carry_spec_witness :
    ∃ c', Cpu.exec_opcode env0
        { cpu0 with registers := [0, 0xFF, 0, 0, 0x03, 0, 0, 0, 0, 0, 0, 0, 0, 0, 0, 0] }
        (0x8000 + (1 * 256 + 4 * 16 + 4)) = .ok c' ∧
      c'.reg 1 = (0xFF + 0x03) % 256 ∧
      c'.reg CARRY_REGISTER = (if 255 < 0xFF + 0x03 then 1 else 0) ∧
      c'.program_counter = (cpu0.program_counter + OPCODE_SIZE) % 4096 :=
  add_with_carry_spec env0 _ 1 4 0xFF 0x03 (by decide) (by decide) (by decide)
    (by decide) (by decide) (by decide) (by decide) (by decide)

/-- C5: the subtract-with-borrow instruction `8XY5` stores the 8-bit two's
complement difference `(a - b) mod 256 = (a + 256 - b) mod 256` in register
X and sets the carry register to 1 exactly when `a ≥ b` (no borrow). -/
theorem sub_with_borrow_spec (env : Env) (c : Cpu) (x y a b : Nat)
    (hx : x < 16) (hy : y < 16) (hxF : x ≠ 15)
    (hlen : c.registers.length = 16)
    (ha : c.reg x = a) (hb : c.reg y = b)
    (ha' : a < 256) (hb' : b < 256) :
    ∃ c', Cpu.exec_opcode env c (0x8000 + (x * 256 + y * 16 + 5)) = .ok c' ∧
      c'.reg x = (a + 256 - b) % 256 ∧
      c'.reg CARRY_REGISTER = (if b ≤ a then 1 else 0) ∧
      c'.program_counter = (c.program_counter + OPCODE_SIZE) % 4096 := by
  have e1 : (0x8000 + (x * 256 + y * 16 + 5)) >>> 12 = 8 := by
    rw [Nat.shiftRight_eq_div_pow]
    norm_num
    omega
  have e2 : (0x8000 + (x * 256 + y * 16 + 5)) &&& 0xFFF = x * 256 + y * 16 + 5 := by
    rw [and_mask_4095]
    omega
  have ex : (x * 256 + y * 16 + 5) / 256 % 16 = x := by omega
  have ey : (x * 256 + y * 16 + 5) / 16 % 16 = y := by omega
  have en : (x * 256 + y * 16 + 5) % 16 = 5 := by omega
  have hstep : Cpu.exec_opcode env c (0x8000 + (x * 256 + y * 16 + 5)) =
      .ok { (c.setReg x ((c.reg x + 256 - c.reg y) % 256)).setReg CARRY_REGISTER
              (if c.reg x < c.reg y then 0 else 1) with
            program_counter := (c.program_counter + OPCODE_SIZE) % 4096 } := by
    unfold Cpu.exec_opcode
    rw [e1, e2, FUNC_MAP_at_8]
    simp only [Cpu.opcode_8, split_xyn_eq]
    rw [ex, ey, en]
    rfl
  have hne : CARRY_REGISTER ≠ x := by
    unfold CARRY_REGISTER
    omega
  refine ⟨_, hstep, ?_, ?_, ?_⟩
  · show ((c.setReg x ((c.reg x + 256 - c.reg y) % 256)).setReg CARRY_REGISTER
      (if c.reg x < c.reg y then 0 else 1)).reg x = _
    rw [reg_setReg_ne _ _ hne]
    rw [reg_setReg_self c x _ (by omega), ha, hb]
  · show ((c.setReg x ((c.reg x + 256 - c.reg y) % 256)).setReg CARRY_REGISTER
      (if c.reg x < c.reg y then 0 else 1)).reg CARRY_REGISTER = _
    rw [reg_setReg_self _ CARRY_REGISTER _
      (by unfold CARRY_REGISTER; simp [Cpu.setReg, hlen])]
    rw [ha, hb]
    rcases Nat.lt_or_ge a b with hab | hab
    · rw [if_pos hab, if_neg (by omega)]
    · rw [if_neg (by omega), if_pos (by omega)]
  · rfl

/-- C5 witness: `a = 0x01`, `b = 0x02` gives result `0xFF` with carry 0. -/
theorem sub_with_borrow_spec_witness :
    ∃ c', Cpu.exec_opcode env0
        { cpu0 with registers := [0, 0x01, 0, 0, 0x02, 0, 0, 0, 0, 0, 0, 0, 0, 0, 0, 0] }
        (0x8000 + (1 * 256 + 4 * 16 + 5)) = .ok c' ∧
      c'.reg 1 = (0x01 + 256 - 0x02) % 256 ∧
      c'.reg CARRY_REGISTER = (if 0x02 ≤ 0x01 then 1 else 0) ∧
      c'.program_counter = (cpu0.program_counter + OPCODE_SIZE) % 4096 :=
  sub_with_borrow_spec env0 _ 1 4 0x01 0x02 (by decide) (by decide) (by decide)
    (by decide) (by decide) (by decide) (by decide) (by decide)

/-- C1, counterexample: on a CPU whose call stack already holds 16 return
addresses, the Call instruction `0x2345` is not an error: it succeeds,
pushes a 17th entry and continues execution at 0x345 (`opcode_2` performs no
stack-depth check). -/
theorem call_on_full_stack_pushes_17th :
    (Cpu.exec_opcode env0 { cpu0 with stack := List.replicate 16 0x300 }
      0x2345).map (fun c => (c.stack.length, c.program_counter)) =
      .ok (17, 0x345) := by
  rfl

/-- C1 (amended): the Call instruction pushes `PC + 2` and jumps for every
CPU state, regardless of the current stack depth — in particular a stack
already holding 16 return addresses grows to 17 and execution continues. -/
theorem call_pushes_unconditionally (env : Env) (c : Cpu) (nnn : Nat)
    (hn : nnn < 4096) :
    ∃ c', Cpu.exec_opcode env c (0x2000 + nnn) = .ok c' ∧
      c'.stack = ((c.program_counter + OPCODE_SIZE) % 4096) :: c.stack ∧
      c'.stack.length = c.stack.length + 1 ∧
      c'.program_counter = nnn := by
  have e1 : (0x2000 + nnn) >>> 12 = 2 := by
    rw [Nat.shiftRight_eq_div_pow]
    norm_num
    omega
  have e2 : (0x2000 + nnn) &&& 0xFFF = nnn := by
    rw [and_mask_4095]
    omega
  have hstep : Cpu.exec_opcode env c (0x2000 + nnn) =
      .ok { { c with stack := ((c.program_counter + OPCODE_SIZE) % 4096) :: c.stack }
            with program_counter := nnn } := by
    unfold Cpu.exec_opcode
    rw [e1, e2, FUNC_MAP_at_2]
    rfl
  exact ⟨_, hstep, rfl, by simp, rfl⟩

/-- C1 witness: the amended theorem applied on the 16-deep stack, target
0x345. -/
theorem call_pushes_unconditionally_witness :
    ∃ c', Cpu.exec_opcode env0 { cpu0 with stack := List.replicate 16 0x300 }
        (0x2000 + 0x345) = .ok c' ∧
      c'.stack = ((cpu0.program_counter + OPCODE_SIZE) % 4096) ::
        List.replicate 16 0x300 ∧
      c'.stack.length = (List.replicate 16 (0x300 : Nat)).length + 1 ∧
      c'.program_counter = 0x345 :=
  call_pushes_unconditionally env0 _ 0x345 (by decide)

/-- The CPU-state part of one 60 Hz tick. -/
def tick60 (c : Cpu) : Cpu := (c.run_60hz_cycle).1

theorem tick60_delay (c : Cpu) : (tick60 c).delay_timer = c.delay_timer - 1 := by
  unfold tick60 Cpu.run_60hz_cycle
  by_cases hs : c.sound_timer > 0 <;> by_cases hd : c.delay_timer > 0 <;>
    simp [hs, hd] <;> omega

theorem tick60_iter_delay (n : Nat) (c : Cpu) :
    (tick60^[n] c).delay_timer = c.delay_timer - n := by
  induction n generalizing c with
  | zero => simp
  | succ n ih =>
    rw [Function.iterate_succ_apply, ih, tick60_delay]
    omega

/-- C7: each 60 Hz tick decrements each timer by 1 when it is positive and
leaves it at 0 otherwise (saturating, never wrapping), and from
`delay_timer = 60` exactly 60 ticks reach 0 while a 61st leaves 0. -/
theorem timers_saturate_at_zero :
    (∀ c : Cpu,
      (c.run_60hz_cycle).1.delay_timer =
        (if 0 < c.delay_timer then c.delay_timer - 1 else 0) ∧
      (c.run_60hz_cycle).1.sound_timer =
        (if 0 < c.sound_timer then c.sound_timer - 1 else 0)) ∧
    (∀ c : Cpu, c.delay_timer = 60 →
      (tick60^[60] c).delay_timer = 0 ∧ (tick60^[61] c).delay_timer = 0) := by
  constructor
  · intro c
    constructor
    · unfold Cpu.run_60hz_cycle
      by_cases hs : c.sound_timer > 0 <;> by_cases hd : c.delay_timer > 0 <;>
        simp [hs, hd] <;> omega
    · unfold Cpu.run_60hz_cycle
      by_cases hs : c.sound_timer > 0 <;> by_cases hd : c.delay_timer > 0 <;>
        simp [hs, hd] <;> omega
  · intro c h
    rw [tick60_iter_delay, tick60_iter_delay, h]
    omega

/-- C7 witness: the tick theorem applied at a CPU with `delay_timer = 60`
and `sound_timer = 5`. -/
theorem timers_saturate_at_zero_witness :
    (({ cpu0 with delay_timer := 60, sound_timer := 5 } : Cpu).run_60hz_cycle).1.delay_timer =
      (if 0 < ({ cpu0 with delay_timer := 60, sound_timer := 5 } : Cpu).delay_timer then
        ({ cpu0 with delay_timer := 60, sound_timer := 5 } : Cpu).delay_timer - 1 else 0) ∧
    (({ cpu0 with delay_timer := 60, sound_timer := 5 } : Cpu).run_60hz_cycle).1.sound_timer =
      (if 0 < ({ cpu0 with delay_timer := 60, sound_timer := 5 } : Cpu).sound_timer then
        ({ cpu0 with delay_timer := 60, sound_timer := 5 } : Cpu).sound_timer - 1 else 0) ∧
    (tick60^[60] { cpu0 with delay_timer := 60, sound_timer := 5 }).delay_timer = 0 ∧
    (tick60^[61] { cpu0 with delay_timer := 60, sound_timer := 5 }).delay_timer = 0 :=
  ⟨(timers_saturate_at_zero.1 _).1, (timers_saturate_at_zero.1 _).2,
    (timers_saturate_at_zero.2 { cpu0 with delay_timer := 60, sound_timer := 5 } rfl).1,
    (timers_saturate_at_zero.2 { cpu0 with delay_timer := 60, sound_timer := 5 } rfl).2⟩

/-- C6: the blocking key-wait `FX0A` has press-then-release semantics.  On a
cycle where Input reports a pressed key, the key is latched and the CPU
state is otherwise unchanged (same registers, same program counter); on a
cycle where Input reports no key while one is latched, the latched key is
written to register X, the latch is cleared, and the program counter
advances by 2. -/
theorem key_wait_press_then_release :
    (∀ (env : Env) (c : Cpu) (x key : Nat), x < 16 →
      env.get_pressed_key = some key →
      Cpu.exec_opcode env c (0xF000 + (x * 256 + 0x0A)) =
        .ok { c with key_latch := some key }) ∧
    (∀ (env : Env) (c : Cpu) (x k : Nat), x < 16 →
      c.registers.length = 16 →
      env.get_pressed_key = none → c.key_latch = some k →
      ∃ c', Cpu.exec_opcode env c (0xF000 + (x * 256 + 0x0A)) = .ok c' ∧
        c'.reg x = k ∧
        c'.key_latch = none ∧
        (∀ j, j ≠ x → c'.reg j = c.reg j) ∧
        c'.program_counter = (c.program_counter + OPCODE_SIZE) % 4096) := by
  have shift : ∀ x : Nat, x < 16 → (0xF000 + (x * 256 + 0x0A)) >>> 12 = 15 := by
    intro x hx
    rw [Nat.shiftRight_eq_div_pow]
    norm_num
    omega
  have mask : ∀ x : Nat, x < 16 →
      (0xF000 + (x * 256 + 0x0A)) &&& 0xFFF = x * 256 + 0x0A := by
    intro x hx
    rw [and_mask_4095]
    omega
  have ex : ∀ x : Nat, x < 16 → (x * 256 + 0x0A) / 256 % 16 = x := by
    intro x hx
    omega
  have eop : ∀ x : Nat, x < 16 → (x * 256 + 0x0A) % 256 = 0x0A := by
    intro x hx
    omega
  constructor
  · intro env c x key hx hk
    unfold Cpu.exec_opcode
    rw [shift x hx, mask x hx, FUNC_MAP_at_15]
    simp only [Cpu.opcode_f, split_xnn_eq]
    rw [ex x hx, eop x hx, hk]
    rfl
  · intro env c x k hx hlen hk hl
    have hstep : Cpu.exec_opcode env c (0xF000 + (x * 256 + 0x0A)) =
        .ok { { c.setReg x k with key_latch := none } with
              program_counter := (c.program_counter + OPCODE_SIZE) % 4096 } := by
      unfold Cpu.exec_opcode
      rw [shift x hx, mask x hx, FUNC_MAP_at_15]
      simp only [Cpu.opcode_f, split_xnn_eq]
      rw [ex x hx, eop x hx, hk, hl]
      rfl
    refine ⟨_, hstep, ?_, rfl, ?_, rfl⟩
    · show (c.setReg x k).reg x = k
      exact reg_setReg_self c x k (by omega)
    · intro j hj
      show (c.setReg x k).reg j = c.reg j
      exact reg_setReg_ne c k (fun h => hj h.symm)

/-- C6 witness: the claim's concrete scenario — key 8 pressed on the first
cycle (latched, PC and register untouched), released on the second cycle
(register 4 becomes 8, PC advances by 2). -/
theorem key_wait_press_then_release_witness :
    (Cpu.exec_opcode { env0 with get_pressed_key := some 8 } cpu0
        (0xF000 + (4 * 256 + 0x0A)) = .ok { cpu0 with key_latch := some 8 }) ∧
    (∃ c', Cpu.exec_opcode env0 { cpu0 with key_latch := some 8 }
        (0xF000 + (4 * 256 + 0x0A)) = .ok c' ∧
      c'.reg 4 = 8 ∧
      c'.key_latch = none ∧
      (∀ j, j ≠ 4 → c'.reg j = ({ cpu0 with key_latch := some 8 } : Cpu).reg j) ∧
      c'.program_counter =
        (({ cpu0 with key_latch := some 8 } : Cpu).program_counter + OPCODE_SIZE) % 4096) :=
  ⟨key_wait_press_then_release.1 _ cpu0 4 8 (by decide) rfl,
    key_wait_press_then_release.2 env0 _ 4 8 (by decide) (by decide) rfl rfl⟩

/-- C3, counterexample: two different offending instruction words (`0x810F`
and `0x820F`) at two different program counters (0x200 and 0x300) produce
the *identical* error value, so the surfaced failure reports neither the
offending instruction word nor the program counter; it is the fixed panic
message of the source, not a structured error. -/
theorem fatal_error_identical_across_contexts :
    Cpu.exec_opcode env0 { cpu0 with program_counter := 0x200 } 0x810F =
      Cpu.exec_opcode env0 { cpu0 with program_counter := 0x300 } 0x820F ∧
    Cpu.exec_opcode env0 { cpu0 with program_counter := 0x200 } 0x810F =
      .error "Unhandled register operation" := by
  exact ⟨rfl, rfl⟩

/-- C3 (amended): every run-time fatal condition — undefined sub-opcode of
families 0, 8, E, F, and stack underflow on return — stops the instruction
step with the panic carrying the source's fixed message for that kind of
failure; the message is independent of the instruction word and program
counter (families 8 and F even share one message). -/
theorem fatal_panic_messages :
    (∀ (env : Env) (c : Cpu) (d : Nat), d < 4096 → d ≠ 0x0E0 → d ≠ 0x0EE →
      Cpu.exec_opcode env c d =
        .error "Unhandled machine code routine instruction") ∧
    (∀ (env : Env) (c : Cpu), c.stack = [] →
      Cpu.exec_opcode env c 0x00EE = .error "Stack underflow!") ∧
    (∀ (env : Env) (c : Cpu) (d : Nat), d < 4096 →
      8 ≤ d % 16 → d % 16 ≠ 14 →
      Cpu.exec_opcode env c (0x8000 + d) =
        .error "Unhandled register operation") ∧
    (∀ (env : Env) (c : Cpu) (d : Nat), d < 4096 →
      d % 256 ≠ 0x9E → d % 256 ≠ 0xA1 →
      Cpu.exec_opcode env c (0xE000 + d) =
        .error "Unhandled key check operation") ∧
    (∀ (env : Env) (c : Cpu) (d : Nat), d < 4096 →
      d % 256 ≠ 0x07 → d % 256 ≠ 0x0A → d % 256 ≠ 0x15 → d % 256 ≠ 0x18 →
      d % 256 ≠ 0x1E → d % 256 ≠ 0x29 → d % 256 ≠ 0x33 → d % 256 ≠ 0x55 →
      d % 256 ≠ 0x65 →
      Cpu.exec_opcode env c (0xF000 + d) =
        .error "Unhandled register operation") := by
  refine ⟨?_, ?_, ?_, ?_, ?_⟩
  · intro env c d hd h1 h2
    have e1 : d >>> 12 = 0 := by
      rw [Nat.shiftRight_eq_div_pow]
      norm_num
      omega
    have e2 : d &&& 0xFFF = d := by
      rw [and_mask_4095]
      omega
    unfold Cpu.exec_opcode
    rw [e1, e2, FUNC_MAP_at_0]
    simp only [Cpu.opcode_0]
    rw [if_neg h1, if_neg h2]
  · intro env c hs
    unfold Cpu.exec_opcode
    have e1 : (0x00EE : Nat) >>> 12 = 0 := by decide
    have e2 : (0x00EE : Nat) &&& 0xFFF = 0x00EE := by decide
    rw [e1, e2, FUNC_MAP_at_0]
    simp only [Cpu.opcode_0]
    rw [if_neg (by decide)]
    rw [if_pos (by trivial), hs]
  · intro env c d hd h8 h14
    have e1 : (0x8000 + d) >>> 12 = 8 := by
      rw [Nat.shiftRight_eq_div_pow]
      norm_num
      omega
    have e2 : (0x8000 + d) &&& 0xFFF = d := by
      rw [and_mask_4095]
      omega
    unfold Cpu.exec_opcode
    rw [e1, e2, FUNC_MAP_at_8]
    simp only [Cpu.opcode_8, split_xyn_eq]
    rw [if_neg (show ¬(d % 16 = 0) by omega),
      if_neg (show ¬(d % 16 = 1) by omega),
      if_neg (show ¬(d % 16 = 2) by omega),
      if_neg (show ¬(d % 16 = 3) by omega),
      if_neg (show ¬(d % 16 = 4) by omega),
      if_neg (show ¬(d % 16 = 5) by omega),
      if_neg (show ¬(d % 16 = 6) by omega),
      if_neg (show ¬(d % 16 = 7) by omega),
      if_neg (show ¬(d % 16 = 14) by omega)]
  · intro env c d hd h1 h2
    have e1 : (0xE000 + d) >>> 12 = 14 := by
      rw [Nat.shiftRight_eq_div_pow]
      norm_num
      omega
    have e2 : (0xE000 + d) &&& 0xFFF = d := by
      rw [and_mask_4095]
      omega
    unfold Cpu.exec_opcode
    rw [e1, e2, FUNC_MAP_at_14]
    simp only [Cpu.opcode_e, split_xnn_eq]
    rw [if_neg (show ¬(d % 256 = 0x9E) from h1),
      if_neg (show ¬(d % 256 = 0xA1) from h2)]
  · intro env c d hd h1 h2 h3 h4 h5 h6 h7 h8 h9
    have e1 : (0xF000 + d) >>> 12 = 15 := by
      rw [Nat.shiftRight_eq_div_pow]
      norm_num
      omega
    have e2 : (0xF000 + d) &&& 0xFFF = d := by
      rw [and_mask_4095]
      omega
    unfold Cpu.exec_opcode
    rw [e1, e2, FUNC_MAP_at_15]
    simp only [Cpu.opcode_f, split_xnn_eq]
    rw [if_neg h1, if_neg h2, if_neg h3, if_neg h4, if_neg h5, if_neg h6,
      if_neg h7, if_neg h8, if_neg h9]

/-- C3 witness: the five fatal families evaluated at concrete undefined
sub-opcodes and at a return on an empty stack. -/
theorem fatal_panic_messages_witness :
    Cpu.exec_opcode env0 cpu0 1 =
      .error "Unhandled machine code routine instruction" ∧
    Cpu.exec_opcode env0 cpu0 0x00EE = .error "Stack underflow!" ∧
    Cpu.exec_opcode env0 cpu0 (0x8000 + 9) =
      .error "Unhandled register operation" ∧
    Cpu.exec_opcode env0 cpu0 (0xE000 + 0) =
      .error "Unhandled key check operation" ∧
    Cpu.exec_opcode env0 cpu0 (0xF000 + 0xFF) =
      .error "Unhandled register operation" :=
  ⟨fatal_panic_messages.1 env0 cpu0 1 (by decide) (by decide) (by decide),
    fatal_panic_messages.2.1 env0 cpu0 rfl,
    fatal_panic_messages.2.2.1 env0 cpu0 9 (by decide) (by decide) (by decide),
    fatal_panic_messages.2.2.2.1 env0 cpu0 0 (by decide) (by decide) (by decide),
    fatal_panic_messages.2.2.2.2 env0 cpu0 0xFF (by decide) (by decide)
      (by decide) (by decide) (by decide) (by decide) (by decide) (by decide)
      (by decide) (by decide)⟩

end Chip8
